import Mathlib

/-!
Verification of the numerical cross-validation harness of the solar-line
repository against its natural-language specification.

The Python sources are shallowly embedded into Lean:

* Machine floats are modelled by exact rationals (and, where a claim is a
  genuine real-analysis fact about a formula, by real numbers).
* Transcendental library functions (math.sin, math.cos, math.exp, math.sqrt,
  math.asin) are oracle parameters of the embedded code: the embedded
  functions are parametric in them, exactly as the Python code is parametric
  in its math library.  Structural claims are proved for every oracle; the
  one analytic claim (the Oberth gain) instantiates the oracle with the real
  square root.
* Python exceptions (ZeroDivisionError, math domain errors, KeyError,
  RuntimeError) are modelled with the Except monad: a raised exception is an
  Except.error value, and an uncaught exception aborts the surrounding
  computation, exactly as exception propagation does in the scripts.
-/

set_option maxRecDepth 8000

/-- Python float division: raises ZeroDivisionError on a zero divisor,
otherwise returns the exact quotient. -/
def pyDiv {α : Type} [Field α] [DecidableEq α] (x y : α) : Except String α :=
  if y = 0 then Except.error "ZeroDivisionError" else Except.ok (x / y)

/-- Python math.sqrt: domain error for a negative argument, otherwise the
value of the square-root oracle. -/
def pySqrt {α : Type} [LinearOrderedField α] (sqrt : α → α) (x : α) : Except String α :=
  if x < 0 then Except.error "math domain error" else Except.ok (sqrt x)

/-- Python math.asin: domain error outside the interval from -1 to 1,
otherwise the value of the arcsine oracle. -/
def pyAsin {α : Type} [LinearOrderedField α] (asin : α → α) (x : α) : Except String α :=
  if x < -1 ∨ 1 < x then Except.error "math domain error" else Except.ok (asin x)

/-- Python's modulo on floats for a nonzero divisor: a - b * floor (a / b),
whose result has the sign of the divisor.  Both call sites in the sources use
the positive divisor 2 * pi. -/
def pyFloorMod (a b : ℚ) : ℚ := a - b * (⌊a / b⌋ : ℤ)

/-- One diagnostic line of the detail log of validate.py.  The source builds
a formatted string carrying the status, the name, both values and the error;
the structure keeps exactly the data interpolated into that string. -/
structure Detail where
  status : Bool
  name : String
  rust_val : ℚ
  python_val : ℚ
  err : ℚ
deriving DecidableEq

/-- Error value of ValidationResult.check in validate.py (lines 223-228):
zero when both values are exactly zero, else the relative error when the
reference magnitude exceeds abs_tol, else the absolute difference. -/
def checkErr (rust_val python_val abs_tol : ℚ) : ℚ :=
  if python_val = 0 ∧ rust_val = 0 then 0
  else if |python_val| > abs_tol then |rust_val - python_val| / |python_val|
  else |rust_val - python_val|

/-- Pass condition of ValidationResult.check in validate.py (line 230):
error within rel_tol, or absolute difference within abs_tol. -/
def checkOk (rust_val python_val rel_tol abs_tol : ℚ) : Bool :=
  decide (checkErr rust_val python_val abs_tol ≤ rel_tol) ||
    decide (|rust_val - python_val| ≤ abs_tol)

/-- Accumulator of validate.py's ValidationResult: pass and fail counters and
the ordered detail log (validate.py lines 214-218). -/
structure ValidationResult where
  passed : Nat
  failed : Nat
  details : List Detail
deriving DecidableEq

/-- Embedding of ValidationResult.check (validate.py lines 220-241).  Returns
the updated accumulator and the list of diagnostic lines printed to the error
stream during the call (one line when the check fails, none otherwise).  The
Python default tolerances 1e-10 and 1e-15 are taken at their ideal rational
values. -/
def ValidationResult.check (vr : ValidationResult) (name : String)
    (rust_val python_val : ℚ) (rel_tol : ℚ := 1 / 10 ^ 10)
    (abs_tol : ℚ := 1 / 10 ^ 15) : ValidationResult × List Detail :=
  let err := checkErr rust_val python_val abs_tol
  let ok := checkOk rust_val python_val rel_tol abs_tol
  let d : Detail := ⟨ok, name, rust_val, python_val, err⟩
  (⟨if ok then vr.passed + 1 else vr.passed,
    if ok then vr.failed else vr.failed + 1,
    vr.details ++ [d]⟩,
   if ok then [] else [d])

/-- Content of the final report of ValidationResult.summary (validate.py
lines 243-254): the two counters, the detail lines in insertion order, and
which of the two terminal messages is printed.  Formatting into strings is
abstracted away; the carried data is exactly what the source interpolates. -/
structure Summary where
  passedCount : Nat
  failedCount : Nat
  detailLines : List Detail
  allPassed : Bool
deriving DecidableEq

/-- Embedding of ValidationResult.summary (validate.py lines 243-254). -/
def ValidationResult.summary (vr : ValidationResult) : Summary :=
  ⟨vr.passed, vr.failed, vr.details, vr.failed == 0⟩

/-- Fresh accumulator of ValidationResult.__init__ (validate.py 215-218). -/
def initVR : ValidationResult := ⟨0, 0, []⟩

/-- One call to vr.check with its arguments, for reasoning about sequences of
checks: name, candidate (Rust) value, reference (Python) value and the two
tolerances. -/
structure CheckArgs where
  name : String
  rust_val : ℚ
  python_val : ℚ
  rel_tol : ℚ
  abs_tol : ℚ

/-- Folding a sequence of check calls over a fresh accumulator, as main() of
validate.py does. -/
def runCalls (calls : List CheckArgs) : ValidationResult :=
  calls.foldl
    (fun vr c => (vr.check c.name c.rust_val c.python_val c.rel_tol c.abs_tol).1)
    initVR

/-- Global pass and fail counters of validate_supplementary.py (478-479). -/
structure SuppState where
  passed : Nat
  failed : Nat
deriving DecidableEq

/-- One line printed by check of validate_supplementary.py, carrying the data
the source interpolates into the printed string in each branch. -/
inductive SuppLine where
  | bothZero (name : String)
  | pass (name : String) (rust_val diff : ℚ)
  | fail (name : String) (rust_val python_val diff : ℚ)
deriving DecidableEq

/-- Embedding of check of validate_supplementary.py (lines 482-498).  Returns
the updated counters, the lines printed to standard output, and the lines
printed to the error stream (the source prints every branch with print() to
standard output, so the last component is always empty). -/
def supp_check (st : SuppState) (name : String) (rust_val python_val : ℚ)
    (rel_tol : ℚ := 1 / 10 ^ 10) (abs_tol : ℚ := 1 / 10 ^ 15) :
    SuppState × List SuppLine × List SuppLine :=
  if |rust_val| < abs_tol ∧ |python_val| < abs_tol then
    (⟨st.passed + 1, st.failed⟩, [SuppLine.bothZero name], [])
  else
    let diff := if |rust_val| < abs_tol then |python_val|
                else |rust_val - python_val| / max |rust_val| abs_tol
    if diff < rel_tol then
      (⟨st.passed + 1, st.failed⟩, [SuppLine.pass name rust_val diff], [])
    else
      (⟨st.passed, st.failed + 1⟩, [SuppLine.fail name rust_val python_val diff], [])

/-- One check of the straight-line main() of validate.py: the check name, the
snapshot key whose value is the candidate, the independently computed
reference value and the two tolerances. -/
structure CheckCall where
  name : String
  key : String
  ref : ℚ
  rel_tol : ℚ
  abs_tol : ℚ

/-- The check-issuing shape of main() of validate.py (for example lines
263-300): each step subscripts the loaded snapshot for the candidate value
and feeds it to vr.check.  A subscript on a missing or malformed field raises
KeyError, which main() does not catch, so the whole run aborts and the
accumulator built so far is discarded. -/
def runChecks (snap : String → Option ℚ) :
    List CheckCall → ValidationResult → Except String ValidationResult
  | [], vr => Except.ok vr
  | c :: rest, vr =>
    match snap c.key with
    | none => Except.error "KeyError"
    | some v => runChecks snap rest (vr.check c.name v c.ref c.rel_tol c.abs_tol).1

/-- Companion total fold of runChecks used to state what the accumulator is
when every lookup succeeds (a missing key is read as 0 here; the theorems use
it only under the hypothesis that no key is missing). -/
def runChecksOk (snap : String → Option ℚ) :
    List CheckCall → ValidationResult → ValidationResult
  | [], vr => vr
  | c :: rest, vr =>
    runChecksOk snap rest (vr.check c.name ((snap c.key).getD 0) c.ref c.rel_tol c.abs_tol).1

/-- Newton loop of solve_kepler in validate.py (lines 98-106), parametric in
the sin and cos oracles, with the remaining iteration count as fuel.
Exhausted fuel is the RuntimeError raised after max_iter iterations; a zero
Newton denominator is Python's ZeroDivisionError. -/
def kepler_go (sin cos : ℚ → ℚ) (M e tol : ℚ) : Nat → ℚ → Except String ℚ
  | 0, _ => Except.error "Kepler solver did not converge"
  | n + 1, E =>
    if 1 - e * cos E = 0 then Except.error "ZeroDivisionError"
    else
      let delta := (E - e * sin E - M) / (1 - e * cos E)
      let E2 := E - delta
      if |delta| < tol then Except.ok E2 else kepler_go sin cos M e tol n E2

/-- Boolean twin of kepler_go: true exactly when some Newton step within the
given fuel has magnitude below tol (and no zero denominator intervenes). -/
def keplerConvergesIn (sin cos : ℚ → ℚ) (M e tol : ℚ) : Nat → ℚ → Bool
  | 0, _ => false
  | n + 1, E =>
    if 1 - e * cos E = 0 then false
    else
      let delta := (E - e * sin E - M) / (1 - e * cos E)
      let E2 := E - delta
      if |delta| < tol then true else keplerConvergesIn sin cos M e tol n E2

/-- Normalization of the mean anomaly into the interval from 0 to 2 pi
(validate.py lines 91-93): Python modulo by 2 pi, then a defensive shift of
negative results. -/
def normalize_two_pi (pi M : ℚ) : ℚ :=
  let M1 := pyFloorMod M (2 * pi)
  if M1 < 0 then M1 + 2 * pi else M1

/-- Embedding of solve_kepler of validate.py (lines 88-106): normalize M,
seed with M + e * sin M for e below 0.8 and with pi otherwise, then run the
Newton loop with tolerance 1e-14 and 50 iterations of fuel. -/
def solve_kepler (sin cos : ℚ → ℚ) (pi M e : ℚ) (tol : ℚ := 1 / 10 ^ 14)
    (max_iter : Nat := 50) : Except String ℚ :=
  let Mn := normalize_two_pi pi M
  let E0 := if e < 4 / 5 then Mn + e * sin Mn else pi
  kepler_go sin cos Mn e tol max_iter E0

/-- Newton loop of solve_kepler of validate_supplementary.py (lines 367-375).
The loop breaks when a step magnitude falls below tol, but when the fuel runs
out it still returns the current iterate: the Boolean in the result records
whether the break was taken, and the first component is exactly what the
Python function returns. -/
def supp_kepler_go (sin cos : ℚ → ℚ) (M e tol : ℚ) :
    Nat → ℚ → Except String (ℚ × Bool)
  | 0, E => Except.ok (E, false)
  | n + 1, E =>
    if 1 - e * cos E = 0 then Except.error "ZeroDivisionError"
    else
      let dE := (M - E + e * sin E) / (1 - e * cos E)
      let E2 := E + dE
      if |dE| < tol then Except.ok (E2, true) else supp_kepler_go sin cos M e tol n E2

/-- Embedding of solve_kepler of validate_supplementary.py (lines 367-375):
seeded with E = M, tolerance 1e-14, 100 iterations, and no convergence
check on return. -/
def supp_solve_kepler (sin cos : ℚ → ℚ) (M e : ℚ) (tol : ℚ := 1 / 10 ^ 14)
    (max_iter : Nat := 100) : Except String ℚ :=
  (supp_kepler_go sin cos M e tol max_iter M).map Prod.fst

section FlybyOberth

variable {α : Type} [LinearOrderedField α]

/-- Embedding of powered_flyby of validate.py (lines 134-154), parametric in
the sqrt and asin oracles and the pi constant.  Returns the triple of turn
angle, periapsis exit speed and outbound hyperbolic excess speed; every
division, square root and arcsine goes through the Python-faithful guarded
primitives. -/
def powered_flyby (sqrt asin : α → α) (pi : α)
    (mu_planet v_inf_mag r_periapsis burn_dv : α) [DecidableEq α] :
    Except String (α × α × α) := do
  let a_in ← pyDiv (-mu_planet) (v_inf_mag ^ 2)
  let q_in ← pyDiv r_periapsis a_in
  let e_in := 1 - q_in
  let s_in ← pyDiv 1 e_in
  let half_turn_in ← pyAsin asin s_in
  let q_peri ← pyDiv (2 * mu_planet) r_periapsis
  let v_peri_in ← pySqrt sqrt (v_inf_mag ^ 2 + q_peri)
  let v_peri_out := v_peri_in + burn_dv
  let q_peri2 ← pyDiv (2 * mu_planet) r_periapsis
  let v_inf_out_sq := v_peri_out ^ 2 - q_peri2
  let v_inf_out ← if v_inf_out_sq > 0 then pySqrt sqrt v_inf_out_sq else pure 0
  let a_out ← if v_inf_out > 1 / 10 ^ 10 then pyDiv (-mu_planet) (v_inf_out ^ 2)
              else pure (-(10 ^ 20))
  let q_out ← pyDiv r_periapsis a_out
  let e_out := 1 - q_out
  let half_turn_out ←
    if e_out > 1 then do
      let s_out ← pyDiv 1 e_out
      pyAsin asin s_out
    else pure (pi / 2)
  let turn_angle := half_turn_in + half_turn_out
  return (turn_angle, v_peri_out, v_inf_out)

/-- Embedding of oberth_dv_gain of validate.py (lines 157-163), parametric in
the sqrt oracle: gain in hyperbolic excess speed of a periapsis burn over the
raw burn delta-v, with the negative exit-energy radicand clamped to zero. -/
def oberth_dv_gain (sqrt : α → α) (mu r_peri v_inf burn_dv : α) [DecidableEq α] :
    Except String α := do
  let q ← pyDiv (2 * mu) r_peri
  let v_peri ← pySqrt sqrt (v_inf ^ 2 + q)
  let v_peri_after := v_peri + burn_dv
  let q2 ← pyDiv (2 * mu) r_peri
  let v_inf_after_sq := v_peri_after ^ 2 - q2
  let v_inf_after ← if v_inf_after_sq > 0 then pySqrt sqrt v_inf_after_sq else pure 0
  return (v_inf_after - v_inf) - burn_dv

end FlybyOberth

/-- Position dictionary of the topological-sort check of validate_dag.py
(line 58): a dict comprehension over enumerate(rust_topo), so a node that
occurs several times keeps its last index, and an absent node has no
position. -/
def buildPos (order : List Nat) : Nat → Option Nat :=
  order.enum.foldl (fun f p => fun x => if x = p.2 then some p.1 else f x)
    (fun _ => none)

/-- Edge loop of the topological-sort check of validate_dag.py (lines 59-62):
stops with false at the first edge whose source position is not strictly
before its target position; subscripting the position dict with an absent
node raises KeyError. -/
def topoLoop (pos : Nat → Option Nat) : List (Nat × Nat) → Except String Bool
  | [] => Except.ok true
  | (u, v) :: rest =>
    match pos u, pos v with
    | some pu, some pv => if pu ≥ pv then Except.ok false else topoLoop pos rest
    | _, _ => Except.error "KeyError"

/-- The topo_valid computation of validate_dag.py (lines 56-62): vacuously
true for a null candidate ordering, otherwise the edge loop over the
reconstructed graph's edges. -/
def topo_sort_valid (edges : List (Nat × Nat)) (rust_topo : Option (List Nat)) :
    Except String Bool :=
  match rust_topo with
  | none => Except.ok true
  | some ord => topoLoop (buildPos ord) edges

/-- Order-insensitive validity predicate in the words of the specification:
every edge's source position is strictly below its target position. -/
def topoRespectsB (edges : List (Nat × Nat)) (order : List Nat) : Bool :=
  edges.all fun p =>
    match buildPos order p.1, buildPos order p.2 with
    | some pu, some pv => decide (pu < pv)
    | _, _ => false

/-- The comparison primitive of validate_dag.py (lines 27-36): plain equality
of the two compared values. -/
def dag_check_ok {β : Type} [DecidableEq β] (rust_val python_val : β) : Bool :=
  rust_val == python_val

/-- Exit code of main() of validate.py (line 649). -/
def main_exit_code (vr : ValidationResult) : Nat := if vr.failed = 0 then 0 else 1

/-- Exit code of main() of validate_dag.py (line 219). -/
def dag_exit_code (failed : Nat) : Nat := if failed = 0 then 0 else 1

/-- Exit code of main() of validate_supplementary.py (lines 766-778):
sys.exit(1) when any check failed, otherwise the interpreter exits with 0. -/
def supp_exit_code (failed : Nat) : Nat := if failed > 0 then 1 else 0

/-- Standard gravitational acceleration constant G0_M_S2 = 9.80665 of
validate_supplementary.py (line 215). -/
def G0_M_S2 : ℚ := 980665 / 100000

/-- Embedding of exhaust_velocity_km_s of validate_supplementary.py
(lines 218-220). -/
def exhaust_velocity_km_s (isp_s : ℚ) : ℚ := isp_s * G0_M_S2 / 1000

/-- Embedding of propellant_consumed of validate_supplementary.py (lines
228-232), parametric in the math.exp oracle; the Tsiolkovsky mass ratio
exp (dv / ve) is inlined.  Raises ZeroDivisionError when the exhaust velocity
is zero or when the mass-ratio oracle value is zero. -/
def propellant_consumed (exp : ℚ → ℚ) (mass_kg dv_km_s isp_s : ℚ) :
    Except String ℚ := do
  let ve := exhaust_velocity_km_s isp_s
  let x ← pyDiv dv_km_s ve
  let mr := exp x
  let y ← pyDiv 1 mr
  return mass_kg * (1 - y)

/-- Embedding of compute_test_timeline of validate_supplementary.py (lines
240-279): burn of 5 km/s, jettison of 50000 kg, burn of 3 km/s, both burns at
Isp 1e6 s and capped at the remaining propellant.  Returns the tuple of final
total, final dry, final propellant, total consumed and margin. -/
def compute_test_timeline (exp : ℚ → ℚ) (initial_total initial_dry : ℚ) :
    Except String (ℚ × ℚ × ℚ × ℚ × ℚ) := do
  let propellant0 := initial_total - initial_dry
  let dry0 := initial_dry
  let total1 := dry0 + propellant0
  let c1 ← propellant_consumed exp total1 5 1000000
  let consumed1 := min c1 propellant0
  let propellant1 := propellant0 - consumed1
  let dry1 := dry0 - 50000
  let total2 := dry1 + propellant1
  let c2 ← propellant_consumed exp total2 3 1000000
  let consumed2 := min c2 propellant1
  let propellant2 := propellant1 - consumed2
  let total3 := dry1 + propellant2
  let initial_prop := initial_total - initial_dry
  let total_consumed := consumed1 + consumed2
  let margin ← pyDiv propellant2 initial_prop
  return (total3, dry1, propellant2, total_consumed, margin)

/-- Whether an Except value carries a returned value rather than a raised
exception. -/
def isOkE {ε β : Type} : Except ε β → Bool
  | Except.ok _ => true
  | Except.error _ => false

@[simp] theorem ok_bind {ε β γ : Type} (a : β) (f : β → Except ε γ) :
    (Except.ok a >>= f) = f a := rfl

@[simp] theorem error_bind {ε β γ : Type} (e : ε) (f : β → Except ε γ) :
    ((Except.error e : Except ε β) >>= f) = Except.error e := rfl

@[simp] theorem pure_eq_ok {ε β : Type} (a : β) :
    (pure a : Except ε β) = Except.ok a := rfl

theorem pyDiv_ok {α : Type} [Field α] [DecidableEq α] {y : α} (h : y ≠ 0) (x : α) :
    pyDiv x y = Except.ok (x / y) := by
  simp [pyDiv, h]

theorem pySqrt_ok {α : Type} [LinearOrderedField α] (sqrt : α → α) {x : α}
    (h : 0 ≤ x) : pySqrt sqrt x = Except.ok (sqrt x) := by
  simp [pySqrt, not_lt.mpr h]

theorem pyAsin_ok {α : Type} [LinearOrderedField α] (asin : α → α) {x : α}
    (h1 : -1 ≤ x) (h2 : x ≤ 1) : pyAsin asin x = Except.ok (asin x) := by
  simp [pyAsin, not_lt.mpr h1, not_lt.mpr h2]

/-- C1.  The claim reads the comparison rule of section 4.1 into every
comparison primitive of the corpus, but the primitive of
validate_supplementary.py implements a different rule: the denominator is the
candidate magnitude clamped below by abs_tol (not the reference magnitude),
the comparison against rel_tol is strict, and there is no absolute-difference
rescue.  At candidate 2, reference 4, rel_tol 1, abs_tol 1e-15 the claimed
rule gives error 1/2 which is at most rel_tol, so the claim predicts a pass,
yet the supplementary primitive records a failure. -/
theorem supp_check_tolerance_rule_cex :
    checkErr 2 4 (1 / 10 ^ 15) = 1 / 2 ∧ ((1 : ℚ) / 2 ≤ 1)
    ∧ (supp_check ⟨0, 0⟩ "x" 2 4 1 (1 / 10 ^ 15)).1.failed = 1 := by
  refine ⟨by norm_num [checkErr], by norm_num, by norm_num [supp_check]⟩

/-- C1 (amended).  The claimed rule holds for ValidationResult.check of
validate.py with nonnegative tolerances: zero error and a pass when both
values are exactly zero, relative error against the reference when the
reference magnitude exceeds abs_tol, absolute difference otherwise, and a
pass exactly when the error is within rel_tol or the absolute difference is
within abs_tol.  The supplementary primitive instead passes exactly when both
magnitudes are below abs_tol or its clamped-candidate relative difference is
strictly below rel_tol. -/
theorem check_tolerance_rule (rust_val python_val rel_tol abs_tol : ℚ)
    (h1 : 0 ≤ rel_tol) (h2 : 0 ≤ abs_tol) :
    (python_val = 0 ∧ rust_val = 0 →
      checkErr rust_val python_val abs_tol = 0 ∧
        checkOk rust_val python_val rel_tol abs_tol = true)
    ∧ (|python_val| > abs_tol →
        checkErr rust_val python_val abs_tol = |rust_val - python_val| / |python_val|)
    ∧ (¬(python_val = 0 ∧ rust_val = 0) → ¬(|python_val| > abs_tol) →
        checkErr rust_val python_val abs_tol = |rust_val - python_val|)
    ∧ (checkOk rust_val python_val rel_tol abs_tol = true ↔
        checkErr rust_val python_val abs_tol ≤ rel_tol ∨
          |rust_val - python_val| ≤ abs_tol)
    ∧ (∀ (st : SuppState) (name : String),
        (supp_check st name rust_val python_val rel_tol abs_tol).1.passed
            = st.passed + 1 ↔
          ((|rust_val| < abs_tol ∧ |python_val| < abs_tol) ∨
            (if |rust_val| < abs_tol then |python_val|
             else |rust_val - python_val| / max |rust_val| abs_tol) < rel_tol)) := by
  refine ⟨?_, ?_, ?_, ?_, ?_⟩
  · rintro ⟨hp, hr⟩
    have herr : checkErr rust_val python_val abs_tol = 0 := by
      simp [checkErr, hp, hr]
    exact ⟨herr, by simp [checkOk, herr, h1]⟩
  · intro hgt
    have hnz : ¬(python_val = 0 ∧ rust_val = 0) := by
      rintro ⟨hp, _⟩
      rw [hp] at hgt
      simp at hgt
      exact absurd hgt (not_lt.mpr h2)
    simp [checkErr, hnz, hgt]
  · intro hnz hle
    simp [checkErr, hnz, hle]
  · simp [checkOk]
  · intro st name
    by_cases hz : |rust_val| < abs_tol ∧ |python_val| < abs_tol
    · simp [supp_check, hz]
    · by_cases hd : (if |rust_val| < abs_tol then |python_val|
          else |rust_val - python_val| / max |rust_val| abs_tol) < rel_tol
      · simp [supp_check, hz, hd]
      · simp [supp_check, hz, hd]

/-- Witness for C1 (amended) at candidate 1, reference 2, rel_tol 1,
abs_tol 0. -/
theorem check_tolerance_rule_witness :
    (0 : ℚ) ≤ 1 ∧ (0 : ℚ) ≤ 0
    ∧ checkErr 1 2 0 = |(1 : ℚ) - 2| / |(2 : ℚ)|
    ∧ (checkOk 1 2 1 0 = true ↔
        checkErr 1 2 0 ≤ 1 ∨ |(1 : ℚ) - 2| ≤ 0) := by
  exact ⟨by norm_num, by norm_num,
    (check_tolerance_rule 1 2 1 0 (by norm_num) (by norm_num)).2.1 (by norm_num),
    (check_tolerance_rule 1 2 1 0 (by norm_num) (by norm_num)).2.2.2.1⟩

/-- C6.  A failed comparison in the supplementary primitive is recorded (the
failure counter is incremented) and raises nothing, but its diagnostic line
goes to standard output only: nothing is emitted to the error stream and
there is no session detail log at all, contradicting the claim for that
comparator. -/
theorem supp_check_stderr_cex :
    (supp_check ⟨0, 0⟩ "y" 2 4 1 (1 / 10 ^ 15)).1.failed = 1
    ∧ (supp_check ⟨0, 0⟩ "y" 2 4 1 (1 / 10 ^ 15)).2.2 = []
    ∧ (supp_check ⟨0, 0⟩ "y" 2 4 1 (1 / 10 ^ 15)).2.1
        = [SuppLine.fail "y" 2 4 1] := by
  refine ⟨by norm_num [supp_check], by norm_num [supp_check], by norm_num [supp_check]⟩

/-- C6 (amended).  For ValidationResult.check of validate.py the claim holds:
a failed check raises nothing, increments exactly the failure counter,
appends exactly one diagnostic line carrying status, name, both values and
the error to the detail log, and emits that same line immediately to the
error stream, while a passing check emits nothing there. -/
theorem check_failure_recorded (vr : ValidationResult) (name : String)
    (rust_val python_val rel_tol abs_tol : ℚ) :
    ((vr.check name rust_val python_val rel_tol abs_tol).1.details
        = vr.details ++ [⟨checkOk rust_val python_val rel_tol abs_tol, name,
            rust_val, python_val, checkErr rust_val python_val abs_tol⟩])
    ∧ (checkOk rust_val python_val rel_tol abs_tol = true →
        (vr.check name rust_val python_val rel_tol abs_tol).1.passed = vr.passed + 1
        ∧ (vr.check name rust_val python_val rel_tol abs_tol).1.failed = vr.failed
        ∧ (vr.check name rust_val python_val rel_tol abs_tol).2 = [])
    ∧ (checkOk rust_val python_val rel_tol abs_tol = false →
        (vr.check name rust_val python_val rel_tol abs_tol).1.failed = vr.failed + 1
        ∧ (vr.check name rust_val python_val rel_tol abs_tol).1.passed = vr.passed
        ∧ (vr.check name rust_val python_val rel_tol abs_tol).2
            = [⟨false, name, rust_val, python_val,
                checkErr rust_val python_val abs_tol⟩]) := by
  refine ⟨?_, ?_, ?_⟩
  · simp [ValidationResult.check]
  · intro hok
    simp [ValidationResult.check, hok]
  · intro hok
    simp [ValidationResult.check, hok]

/-- Witness for C6 (amended) at a failing check: candidate 0, reference 1,
rel_tol 0, abs_tol 0 starting from a fresh accumulator. -/
theorem check_failure_recorded_witness :
    checkOk 0 1 0 0 = false
    ∧ (initVR.check "z" 0 1 0 0).1.failed = initVR.failed + 1
    ∧ (initVR.check "z" 0 1 0 0).2
        = [⟨false, "z", 0, 1, checkErr 0 1 0⟩] := by
  have hok : checkOk 0 1 0 0 = false := by norm_num [checkOk, checkErr]
  exact ⟨hok, ((check_failure_recorded initVR "z" 0 1 0 0).2.2 hok).1,
    ((check_failure_recorded initVR "z" 0 1 0 0).2.2 hok).2.2⟩

/-- C8.  Every validation entry point maps its final failure count to the
process exit code 0 exactly when no check failed and 1 otherwise:
validate.py line 649, validate_dag.py line 219 and the sys.exit(1) branch of
validate_supplementary.py lines 766-778. -/
theorem exit_code_iff_failures (vr : ValidationResult) (f : Nat) :
    (main_exit_code vr = 0 ↔ vr.failed = 0)
    ∧ (main_exit_code vr = 1 ↔ vr.failed ≠ 0)
    ∧ (dag_exit_code f = 0 ↔ f = 0) ∧ (dag_exit_code f = 1 ↔ f ≠ 0)
    ∧ (supp_exit_code f = 0 ↔ f = 0) ∧ (supp_exit_code f = 1 ↔ f ≠ 0) := by
  unfold main_exit_code dag_exit_code supp_exit_code
  refine ⟨?_, ?_, ?_, ?_, ?_, ?_⟩ <;> split_ifs with h <;> simp [h] <;> omega

theorem check_step_counts (vr : ValidationResult) (name : String)
    (rust_val python_val rel_tol abs_tol : ℚ) :
    (vr.check name rust_val python_val rel_tol abs_tol).1.passed
        + (vr.check name rust_val python_val rel_tol abs_tol).1.failed
      = vr.passed + vr.failed + 1
    ∧ (vr.check name rust_val python_val rel_tol abs_tol).1.details.length
      = vr.details.length + 1 := by
  unfold ValidationResult.check
  cases hok : checkOk rust_val python_val rel_tol abs_tol <;> simp [hok] <;> omega

theorem foldChecks_inv (calls : List CheckArgs) :
    ∀ vr : ValidationResult, vr.passed + vr.failed = vr.details.length →
      (calls.foldl
          (fun vr c => (vr.check c.name c.rust_val c.python_val c.rel_tol c.abs_tol).1)
          vr).passed
        + (calls.foldl
            (fun vr c => (vr.check c.name c.rust_val c.python_val c.rel_tol c.abs_tol).1)
            vr).failed
      = (calls.foldl
          (fun vr c => (vr.check c.name c.rust_val c.python_val c.rel_tol c.abs_tol).1)
          vr).details.length := by
  induction calls with
  | nil => intro vr h; simpa using h
  | cons c rest ih =>
    intro vr h
    simp only [List.foldl_cons]
    apply ih
    have hc := check_step_counts vr c.name c.rust_val c.python_val c.rel_tol c.abs_tol
    omega

/-- C9.  The ValidationResult accumulator of validate.py keeps the invariant
passed + failed = number of detail lines across any sequence of check calls
starting from a fresh accumulator: every call increments exactly one of the
two counters by exactly one and appends exactly one detail line, the counters
are naturals so never negative, and summary reports exactly the accumulated
counters together with the detail lines in insertion order. -/
theorem validation_result_invariant (calls : List CheckArgs) :
    (runCalls calls).passed + (runCalls calls).failed
        = (runCalls calls).details.length
    ∧ (∀ (vr : ValidationResult) (c : CheckArgs),
        (vr.check c.name c.rust_val c.python_val c.rel_tol c.abs_tol).1.details
            = vr.details ++ [⟨checkOk c.rust_val c.python_val c.rel_tol c.abs_tol,
                c.name, c.rust_val, c.python_val,
                checkErr c.rust_val c.python_val c.abs_tol⟩]
        ∧ ((vr.check c.name c.rust_val c.python_val c.rel_tol c.abs_tol).1.passed
                = vr.passed + 1
              ∧ (vr.check c.name c.rust_val c.python_val c.rel_tol c.abs_tol).1.failed
                = vr.failed
            ∨ (vr.check c.name c.rust_val c.python_val c.rel_tol c.abs_tol).1.passed
                = vr.passed
              ∧ (vr.check c.name c.rust_val c.python_val c.rel_tol c.abs_tol).1.failed
                = vr.failed + 1))
    ∧ (runCalls calls).summary
        = ⟨(runCalls calls).passed, (runCalls calls).failed,
            (runCalls calls).details, (runCalls calls).failed == 0⟩ := by
  refine ⟨foldChecks_inv calls initVR rfl, ?_, rfl⟩
  intro vr c
  unfold ValidationResult.check
  cases hok : checkOk c.rust_val c.python_val c.rel_tol c.abs_tol <;> simp [hok]

theorem runChecks_behavior (snap : String → Option ℚ) (calls : List CheckCall) :
    ∀ vr : ValidationResult,
      ((∀ c ∈ calls, (snap c.key).isSome = true) →
          runChecks snap calls vr = Except.ok (runChecksOk snap calls vr))
      ∧ ((runChecksOk snap calls vr).details.length
          = vr.details.length + calls.length)
      ∧ ((∃ c ∈ calls, snap c.key = none) →
          runChecks snap calls vr = Except.error "KeyError") := by
  induction calls with
  | nil =>
    intro vr
    refine ⟨fun _ => rfl, by simp [runChecksOk], fun h => ?_⟩
    simp at h
  | cons c rest ih =>
    intro vr
    refine ⟨?_, ?_, ?_⟩
    · intro h
      have hc := h c (List.mem_cons_self c rest)
      cases hsnap : snap c.key with
      | none => rw [hsnap] at hc; simp at hc
      | some v =>
        simp only [runChecks, runChecksOk, hsnap, Option.getD_some]
        exact (ih _).1 fun d hd => h d (List.mem_cons_of_mem _ hd)
    · simp only [runChecksOk]
      rw [(ih _).2.1]
      have hlen := (check_step_counts vr c.name ((snap c.key).getD 0) c.ref
        c.rel_tol c.abs_tol).2
      rw [hlen]
      simp [Nat.add_assoc, Nat.add_comm 1 rest.length]
    · rintro ⟨d, hd, hnone⟩
      rcases List.mem_cons.mp hd with rfl | hmem
      · simp only [runChecks, hnone]
      · cases hsnap : snap c.key with
        | none => simp only [runChecks, hsnap]
        | some v =>
          simp only [runChecks, hsnap]
          exact (ih _).2.2 ⟨d, hmem, hnone⟩

/-- C3.  A reference-value lookup that fails while processing one check is
not surfaced through the comparator: the main() of validate.py subscripts the
snapshot inline and an uncaught KeyError aborts the whole session, so the
checks after the failing one never run and no summary is produced.  Here the
snapshot lacks the key of the second of three checks and the session ends in
the KeyError instead of a three-line report. -/
theorem missing_lookup_cex :
    runChecks (fun k => if k = "a" then some (1 : ℚ) else none)
        [⟨"c1", "a", 1, 1, 1⟩, ⟨"c2", "b", 2, 1, 1⟩, ⟨"c3", "c", 3, 1, 1⟩] initVR
      = Except.error "KeyError" := by
  simp only [runChecks]
  simp

/-- C3 (amended).  A missing reference value aborts the session rather than
being recorded: when every lookup succeeds the runner returns the accumulator
holding one appended detail line per check, and as soon as any check's key is
missing the run ends with the uncaught KeyError, discarding the session
state; only per-check tolerance failures are recorded without aborting. -/
theorem missing_lookup_aborts (snap : String → Option ℚ) (calls : List CheckCall)
    (vr : ValidationResult) :
    ((∀ c ∈ calls, (snap c.key).isSome = true) →
        runChecks snap calls vr = Except.ok (runChecksOk snap calls vr))
    ∧ ((runChecksOk snap calls vr).details.length
        = vr.details.length + calls.length)
    ∧ ((∃ c ∈ calls, snap c.key = none) →
        runChecks snap calls vr = Except.error "KeyError") :=
  runChecks_behavior snap calls vr

/-- Witness for C3 (amended): a snapshot holding the single key that the
single check asks for, so the session completes with a one-line report. -/
theorem missing_lookup_aborts_witness :
    runChecks (fun k => if k = "a" then some (1 : ℚ) else none)
        [⟨"n1", "a", 1, 1, 1⟩] initVR
      = Except.ok (runChecksOk (fun k => if k = "a" then some (1 : ℚ) else none)
          [⟨"n1", "a", 1, 1, 1⟩] initVR) := by
  have h : ∀ c ∈ [(⟨"n1", "a", 1, 1, 1⟩ : CheckCall)],
      (((fun k => if k = "a" then some (1 : ℚ) else none) : String → Option ℚ)
          c.key).isSome = true := by
    intro c hc
    rw [List.mem_singleton] at hc
    subst hc
    rfl
  exact (missing_lookup_aborts _ _ _).1 h

theorem kepler_go_isOk_iff (sin cos : ℚ → ℚ) (M e tol : ℚ) :
    ∀ (n : Nat) (E : ℚ),
      isOkE (kepler_go sin cos M e tol n E) = true ↔
        keplerConvergesIn sin cos M e tol n E = true := by
  intro n
  induction n with
  | zero => intro E; simp [kepler_go, keplerConvergesIn, isOkE]
  | succ n ih =>
    intro E
    simp only [kepler_go, keplerConvergesIn]
    by_cases hfp : 1 - e * cos E = 0
    · simp [hfp, isOkE]
    · simp only [if_neg hfp]
      by_cases hdelta : |(E - e * sin E - M) / (1 - e * cos E)| < tol
      · simp [hdelta, isOkE]
      · simp only [if_neg hdelta]
        exact ih _

/-- C2.  The Kepler solver of validate_supplementary.py falsifies the claim
for non-convergent inputs: with the sin and cos oracles x maps to 2 x and
constantly 4, mean anomaly 1 and eccentricity 1/2 (inside the claimed
domain), every Newton step equals -1, so the step magnitude never falls
below 1e-14; the loop exhausts its 100 iterations (not 50) with the break
never taken (second component false) and the solver still returns the last
iterate 1 - 100 = -99 instead of raising a convergence error. -/
theorem supp_solve_kepler_returns_cex :
    (0 : ℚ) ≤ 1 / 2 ∧ (1 / 2 : ℚ) < 1
    ∧ (supp_kepler_go (fun x => 2 * x) (fun _ => 4) 1 (1 / 2)
          (1 / 10 ^ 14) 100 1).map Prod.snd = Except.ok false
    ∧ supp_solve_kepler (fun x => 2 * x) (fun _ => 4) 1 (1 / 2)
        = Except.ok (-99) := by
  have hloop : ∀ (n : Nat) (E : ℚ),
      supp_kepler_go (fun x => 2 * x) (fun _ => 4) 1 (1 / 2) (1 / 10 ^ 14) n E
        = Except.ok (E - n, false) := by
    intro n
    induction n with
    | zero => intro E; simp [supp_kepler_go]
    | succ n ih =>
      intro E
      rw [supp_kepler_go]
      have hden : (1 : ℚ) - 1 / 2 * (fun _ : ℚ => (4 : ℚ)) E ≠ 0 := by norm_num
      rw [if_neg hden]
      have hdE : ((1 : ℚ) - E + 1 / 2 * (fun x : ℚ => 2 * x) E) /
          ((1 : ℚ) - 1 / 2 * (fun _ : ℚ => (4 : ℚ)) E) = -1 := by
        show ((1 : ℚ) - E + 1 / 2 * (2 * E)) / ((1 : ℚ) - 1 / 2 * 4) = -1
        have harg : (1 : ℚ) - E + 1 / 2 * (2 * E) = 1 := by ring
        rw [harg]
        norm_num
      simp only [hdE]
      rw [if_neg (by norm_num)]
      rw [ih (E + -1)]
      congr 1
      push_cast
      ring_nf
  refine ⟨by norm_num, by norm_num, ?_, ?_⟩
  · rw [hloop]
    rfl
  · show (supp_kepler_go (fun x => 2 * x) (fun _ => 4) 1 (1 / 2)
        (1 / 10 ^ 14) 100 1).map Prod.fst = Except.ok (-99)
    rw [hloop]
    norm_num [Except.map]

/-- C2 (amended).  The solver of validate.py has exactly the claimed
structure for every oracle and every eccentricity in the unit interval: it is
seeded with M + e sin M below eccentricity 0.8 and with pi otherwise, runs
the Newton loop with tolerance 1e-14 and 50 iterations of fuel, and returns
a value exactly when some step magnitude falls below the tolerance within
the fuel (otherwise an exception is raised).  The supplementary module's
solver instead starts from the raw mean anomaly with 100 iterations of fuel
and returns its last iterate even when the loop never converged. -/
theorem solve_kepler_structure (sin cos : ℚ → ℚ) (pi M e : ℚ)
    (h0 : 0 ≤ e) (h1 : e < 1) :
    solve_kepler sin cos pi M e
      = kepler_go sin cos (normalize_two_pi pi M) e (1 / 10 ^ 14) 50
          (if e < 4 / 5 then
              normalize_two_pi pi M + e * sin (normalize_two_pi pi M)
            else pi)
    ∧ (∀ (n : Nat) (E : ℚ),
        isOkE (kepler_go sin cos (normalize_two_pi pi M) e (1 / 10 ^ 14) n E)
            = true ↔
          keplerConvergesIn sin cos (normalize_two_pi pi M) e (1 / 10 ^ 14) n E
            = true)
    ∧ supp_solve_kepler sin cos M e
        = (supp_kepler_go sin cos M e (1 / 10 ^ 14) 100 M).map Prod.fst :=
  ⟨rfl, kepler_go_isOk_iff sin cos (normalize_two_pi pi M) e (1 / 10 ^ 14), rfl⟩

/-- Witness for C2 (amended) with the zero oracles, pi as 3, mean anomaly 0
and eccentricity 1/2. -/
theorem solve_kepler_structure_witness :
    (0 : ℚ) ≤ 1 / 2 ∧ (1 / 2 : ℚ) < 1
    ∧ solve_kepler (fun _ => 0) (fun _ => 0) 3 0 (1 / 2)
        = kepler_go (fun _ => 0) (fun _ => 0) (normalize_two_pi 3 0) (1 / 2)
            (1 / 10 ^ 14) 50
            (if (1 / 2 : ℚ) < 4 / 5 then
                normalize_two_pi 3 0 + 1 / 2 * 0
              else 3)
    ∧ (isOkE (kepler_go (fun _ => 0) (fun _ => 0) (normalize_two_pi 3 0) (1 / 2)
          (1 / 10 ^ 14) 1 0) = true ↔
        keplerConvergesIn (fun _ => 0) (fun _ => 0) (normalize_two_pi 3 0) (1 / 2)
          (1 / 10 ^ 14) 1 0 = true) :=
  ⟨by norm_num, by norm_num,
    (solve_kepler_structure (fun _ => 0) (fun _ => 0) 3 0 (1 / 2)
      (by norm_num) (by norm_num)).1,
    (solve_kepler_structure (fun _ => 0) (fun _ => 0) 3 0 (1 / 2)
      (by norm_num) (by norm_num)).2.1 1 0⟩

theorem topoLoop_eq (pos : Nat → Option Nat) (edges : List (Nat × Nat))
    (h : ∀ p ∈ edges, (pos p.1).isSome = true ∧ (pos p.2).isSome = true) :
    topoLoop pos edges
      = Except.ok (edges.all fun p =>
          match pos p.1, pos p.2 with
          | some pu, some pv => decide (pu < pv)
          | _, _ => false) := by
  induction edges with
  | nil => rfl
  | cons p rest ih =>
    obtain ⟨h1, h2⟩ := h p (List.mem_cons_self p rest)
    obtain ⟨pu, hpu⟩ := Option.isSome_iff_exists.mp h1
    obtain ⟨pv, hpv⟩ := Option.isSome_iff_exists.mp h2
    obtain ⟨u, v⟩ := p
    simp only at hpu hpv
    simp only [topoLoop, hpu, hpv, List.all_cons]
    by_cases hge : pu ≥ pv
    · rw [if_pos hge]
      have hlt : decide (pu < pv) = false := by simp [not_lt.mpr hge]
      simp [hlt]
    · rw [if_neg hge]
      rw [ih fun q hq => h q (List.mem_cons_of_mem _ hq)]
      have hlt : decide (pu < pv) = true := by simp [lt_of_not_ge hge]
      simp [hlt]

/-- C7.  The topological-sort check of validate_dag.py is order-insensitive:
whenever every edge endpoint has a position in the non-null candidate
ordering, the computed topo_valid flag is true exactly when every edge's
source position is strictly below its target position, and the subsequent
check of that flag against True passes exactly then; no comparison against
any particular ordering is involved. -/
theorem topo_sort_order_insensitive (edges : List (Nat × Nat)) (ord : List Nat)
    (h : ∀ p ∈ edges, (buildPos ord p.1).isSome = true
        ∧ (buildPos ord p.2).isSome = true) :
    topo_sort_valid edges (some ord) = Except.ok (topoRespectsB edges ord)
    ∧ (dag_check_ok true (topoRespectsB edges ord) = true ↔
        topoRespectsB edges ord = true) := by
  constructor
  · show topoLoop (buildPos ord) edges = _
    rw [topoLoop_eq (buildPos ord) edges h]
    rfl
  · cases hb : topoRespectsB edges ord <;> simp [dag_check_ok, hb]

/-- Witness for C7 on the two-edge chain graph with the ordering 0, 1, 2. -/
theorem topo_sort_order_insensitive_witness :
    topo_sort_valid [(0, 1), (1, 2)] (some [0, 1, 2])
      = Except.ok (topoRespectsB [(0, 1), (1, 2)] [0, 1, 2]) := by
  have h : ∀ p ∈ [((0 : Nat), (1 : Nat)), (1, 2)],
      (buildPos [0, 1, 2] p.1).isSome = true
      ∧ (buildPos [0, 1, 2] p.2).isSome = true := by decide
  exact (topo_sort_order_insensitive _ _ h).1

theorem oberth_dv_gain_eval {α : Type} [LinearOrderedField α] [DecidableEq α]
    (sqrt : α → α) (mu r_peri v_inf burn_dv : α)
    (hmu : 0 < mu) (hr : 0 < r_peri) :
    oberth_dv_gain sqrt mu r_peri v_inf burn_dv
      = Except.ok
          ((if 0 < (sqrt (v_inf ^ 2 + 2 * mu / r_peri) + burn_dv) ^ 2
                - 2 * mu / r_peri then
              sqrt ((sqrt (v_inf ^ 2 + 2 * mu / r_peri) + burn_dv) ^ 2
                - 2 * mu / r_peri)
            else 0) - v_inf - burn_dv) := by
  have hrne : r_peri ≠ 0 := ne_of_gt hr
  have hs1 : pySqrt sqrt (v_inf ^ 2 + 2 * mu / r_peri)
      = Except.ok (sqrt (v_inf ^ 2 + 2 * mu / r_peri)) :=
    pySqrt_ok sqrt (by positivity)
  simp only [oberth_dv_gain, pyDiv_ok hrne, ok_bind, hs1]
  by_cases hrad : 0 < (sqrt (v_inf ^ 2 + 2 * mu / r_peri) + burn_dv) ^ 2
      - 2 * mu / r_peri
  · rw [if_pos hrad, if_pos hrad, pySqrt_ok sqrt hrad.le, ok_bind]
    rfl
  · rw [if_neg hrad, if_neg hrad]
    rfl

theorem powered_flyby_eval {α : Type} [LinearOrderedField α] [DecidableEq α]
    (sqrt asin : α → α) (pi : α) (mu v_inf r_peri burn_dv : α)
    (hmu : 0 < mu) (hr : 0 < r_peri) (hv : v_inf ≠ 0) :
    ∃ turn : α,
      powered_flyby sqrt asin pi mu v_inf r_peri burn_dv
        = Except.ok (turn, sqrt (v_inf ^ 2 + 2 * mu / r_peri) + burn_dv,
            if 0 < (sqrt (v_inf ^ 2 + 2 * mu / r_peri) + burn_dv) ^ 2
                - 2 * mu / r_peri then
              sqrt ((sqrt (v_inf ^ 2 + 2 * mu / r_peri) + burn_dv) ^ 2
                - 2 * mu / r_peri)
            else 0) := by
  have hrne : r_peri ≠ 0 := ne_of_gt hr
  have hv2 : (0 : α) < v_inf ^ 2 := by positivity
  have hv2ne : v_inf ^ 2 ≠ 0 := ne_of_gt hv2
  have hain_neg : -mu / v_inf ^ 2 < 0 := div_neg_of_neg_of_pos (by linarith) hv2
  have hain_ne : -mu / v_inf ^ 2 ≠ 0 := ne_of_lt hain_neg
  have hqin_neg : r_peri / (-mu / v_inf ^ 2) < 0 := div_neg_of_pos_of_neg hr hain_neg
  have hein_gt : (1 : α) < 1 - r_peri / (-mu / v_inf ^ 2) := by linarith
  have hein_pos : (0 : α) < 1 - r_peri / (-mu / v_inf ^ 2) := by linarith
  have hein_ne : (1 : α) - r_peri / (-mu / v_inf ^ 2) ≠ 0 := ne_of_gt hein_pos
  have hsin_le : (1 : α) / (1 - r_peri / (-mu / v_inf ^ 2)) ≤ 1 :=
    (div_le_one hein_pos).mpr (le_of_lt hein_gt)
  have hsin_ge : (-1 : α) ≤ 1 / (1 - r_peri / (-mu / v_inf ^ 2)) := by
    have : (0 : α) < 1 / (1 - r_peri / (-mu / v_inf ^ 2)) := by positivity
    linarith
  have hs1 : pySqrt sqrt (v_inf ^ 2 + 2 * mu / r_peri)
      = Except.ok (sqrt (v_inf ^ 2 + 2 * mu / r_peri)) :=
    pySqrt_ok sqrt (by positivity)
  have tail : ∀ a_out : α, a_out < 0 → ∀ w : α,
      ∃ turn : α,
        (pyDiv r_peri a_out >>= fun q_out =>
          if 1 - q_out > 1 then
            pyDiv 1 (1 - q_out) >>= fun s_out =>
              pyAsin asin s_out >>= fun y =>
                pure (asin (1 / (1 - r_peri / (-mu / v_inf ^ 2))) + y,
                  sqrt (v_inf ^ 2 + 2 * mu / r_peri) + burn_dv, w)
          else
            pure (pi / 2) >>= fun y =>
              (pure (asin (1 / (1 - r_peri / (-mu / v_inf ^ 2))) + y,
                sqrt (v_inf ^ 2 + 2 * mu / r_peri) + burn_dv, w) :
                Except String (α × α × α)))
          = Except.ok (turn, sqrt (v_inf ^ 2 + 2 * mu / r_peri) + burn_dv, w) := by
    intro a_out haout w
    have haout_ne : a_out ≠ 0 := ne_of_lt haout
    have hqout_neg : r_peri / a_out < 0 := div_neg_of_pos_of_neg hr haout
    have heout_gt : (1 : α) < 1 - r_peri / a_out := by linarith
    have heout_pos : (0 : α) < 1 - r_peri / a_out := by linarith
    have heout_ne : (1 : α) - r_peri / a_out ≠ 0 := ne_of_gt heout_pos
    have hsout_le : (1 : α) / (1 - r_peri / a_out) ≤ 1 :=
      (div_le_one heout_pos).mpr (le_of_lt heout_gt)
    have hsout_ge : (-1 : α) ≤ 1 / (1 - r_peri / a_out) := by
      have : (0 : α) < 1 / (1 - r_peri / a_out) := by positivity
      linarith
    rw [pyDiv_ok haout_ne, ok_bind, if_pos heout_gt, pyDiv_ok heout_ne, ok_bind,
      pyAsin_ok asin hsout_ge hsout_le, ok_bind]
    exact ⟨_, rfl⟩
  simp only [powered_flyby, pyDiv_ok hv2ne, ok_bind, pyDiv_ok hain_ne,
    pyDiv_ok hein_ne, pyAsin_ok asin hsin_ge hsin_le, pyDiv_ok hrne, hs1]
  by_cases hrad : 0 < (sqrt (v_inf ^ 2 + 2 * mu / r_peri) + burn_dv) ^ 2
      - 2 * mu / r_peri
  · rw [if_pos hrad, pySqrt_ok sqrt hrad.le, ok_bind]
    set w := sqrt ((sqrt (v_inf ^ 2 + 2 * mu / r_peri) + burn_dv) ^ 2
      - 2 * mu / r_peri) with hw
    by_cases hwbig : w > 1 / 10 ^ 10
    · rw [if_pos hwbig]
      have h10 : (0 : α) < 1 / 10 ^ 10 := by positivity
      have hw0 : (0 : α) < w := lt_trans h10 hwbig
      have hwne : w ^ 2 ≠ 0 := by positivity
      rw [pyDiv_ok hwne, ok_bind]
      have haneg : -mu / w ^ 2 < 0 := div_neg_of_neg_of_pos (by linarith) (by positivity)
      rw [if_pos hrad]
      exact tail _ haneg w
    · rw [if_neg hwbig]
      have hneg : (-(10 ^ 20) : α) < 0 := by
        have : (0 : α) < (10 : α) ^ 20 := by positivity
        linarith
      rw [pure_eq_ok, ok_bind, if_pos hrad]
      exact tail _ hneg w
  · rw [if_neg hrad]
    rw [pure_eq_ok, ok_bind]
    have h0 : ¬ ((0 : α) > 1 / 10 ^ 10) := by
      have : (0 : α) < 1 / 10 ^ 10 := by positivity
      exact not_lt.mpr (le_of_lt this)
    rw [if_neg h0]
    have hneg : (-(10 ^ 20) : α) < 0 := by
      have : (0 : α) < (10 : α) ^ 20 := by positivity
      linarith
    rw [pure_eq_ok, ok_bind, if_neg hrad]
    exact tail _ hneg 0

/-- C4.  The claim promises a returned value for every input with positive mu
and periapsis radius whose exit radicand is nonnegative, but powered_flyby
divides by the square of the incoming hyperbolic excess speed on its first
line: at mu 1, v-infinity 0, periapsis 1, burn 1 (whose radicand under the
identity square-root oracle is 7, well above zero) the call raises
ZeroDivisionError instead of returning. -/
theorem powered_flyby_zero_vinf_cex :
    (0 : ℚ) < 1 ∧ (0 : ℚ) < 1
    ∧ (0 : ℚ) < (((0 : ℚ) ^ 2 + 2 * 1 / 1) + 1) ^ 2 - 2 * 1 / 1
    ∧ powered_flyby (fun x : ℚ => x) (fun x => x) 3 1 0 1 1
        = Except.error "ZeroDivisionError" := by
  refine ⟨by norm_num, by norm_num, by norm_num, ?_⟩
  simp [powered_flyby, pyDiv]

/-- C4 (amended).  With positive mu and periapsis radius, oberth_dv_gain
always returns a value, clamping a nonpositive exit radicand to an outbound
v-infinity of zero, and powered_flyby does the same for every nonzero
incoming v-infinity; at v-infinity exactly zero powered_flyby instead raises
ZeroDivisionError on its first division. -/
theorem flyby_oberth_clamp {α : Type} [LinearOrderedField α] [DecidableEq α]
    (sqrt asin : α → α) (pi mu v_inf r_peri burn_dv : α)
    (hmu : 0 < mu) (hr : 0 < r_peri) :
    oberth_dv_gain sqrt mu r_peri v_inf burn_dv
      = Except.ok
          ((if 0 < (sqrt (v_inf ^ 2 + 2 * mu / r_peri) + burn_dv) ^ 2
                - 2 * mu / r_peri then
              sqrt ((sqrt (v_inf ^ 2 + 2 * mu / r_peri) + burn_dv) ^ 2
                - 2 * mu / r_peri)
            else 0) - v_inf - burn_dv)
    ∧ (v_inf ≠ 0 → ∃ turn : α,
        powered_flyby sqrt asin pi mu v_inf r_peri burn_dv
          = Except.ok (turn, sqrt (v_inf ^ 2 + 2 * mu / r_peri) + burn_dv,
              if 0 < (sqrt (v_inf ^ 2 + 2 * mu / r_peri) + burn_dv) ^ 2
                  - 2 * mu / r_peri then
                sqrt ((sqrt (v_inf ^ 2 + 2 * mu / r_peri) + burn_dv) ^ 2
                  - 2 * mu / r_peri)
              else 0)) :=
  ⟨oberth_dv_gain_eval sqrt mu r_peri v_inf burn_dv hmu hr,
   fun hv => powered_flyby_eval sqrt asin pi mu v_inf r_peri burn_dv hmu hr hv⟩

/-- Witness for C4 (amended) over the rationals with identity oracles at
mu 1, periapsis 1, v-infinity 1 and burn -2: the radicand is -1, the clamp
fires and the gain evaluates to (0 - 1) - (-2) = 1; powered_flyby returns a
value at the same input. -/
theorem flyby_oberth_clamp_witness :
    (0 : ℚ) < 1 ∧ ((1 : ℚ) ≠ 0)
    ∧ oberth_dv_gain (fun x : ℚ => x) 1 1 1 (-2) = Except.ok 1
    ∧ isOkE (powered_flyby (fun x : ℚ => x) (fun x => x) 3 1 1 1 (-2)) = true := by
  have h := flyby_oberth_clamp (α := ℚ) (fun x => x) (fun x => x) 3 1 1 1 (-2)
    (by norm_num) (by norm_num)
  refine ⟨by norm_num, by norm_num, ?_, ?_⟩
  · rw [h.1]
    norm_num
  · obtain ⟨t, ht⟩ := h.2 (by norm_num)
    rw [ht]
    rfl

/-- C5.  With the real square root as the oracle and positive mu, periapsis
radius, incoming v-infinity and burn, oberth_dv_gain returns exactly the gain
of the outbound over the incoming v-infinity minus the raw burn, and that
gain is strictly positive: a periapsis burn always beats the raw burn. -/
theorem oberth_gain_exceeds_burn (mu r_peri v_inf burn_dv : ℝ)
    (hmu : 0 < mu) (hr : 0 < r_peri) (hv : 0 < v_inf) (hb : 0 < burn_dv) :
    oberth_dv_gain Real.sqrt mu r_peri v_inf burn_dv
      = Except.ok
          (Real.sqrt ((Real.sqrt (v_inf ^ 2 + 2 * mu / r_peri) + burn_dv) ^ 2
              - 2 * mu / r_peri) - v_inf - burn_dv)
    ∧ 0 < Real.sqrt ((Real.sqrt (v_inf ^ 2 + 2 * mu / r_peri) + burn_dv) ^ 2
          - 2 * mu / r_peri) - v_inf - burn_dv := by
  have hq : (0 : ℝ) < 2 * mu / r_peri := by positivity
  have hP2 : Real.sqrt (v_inf ^ 2 + 2 * mu / r_peri) ^ 2
      = v_inf ^ 2 + 2 * mu / r_peri := Real.sq_sqrt (by positivity)
  set P := Real.sqrt (v_inf ^ 2 + 2 * mu / r_peri) with hPdef
  have hPpos : 0 < P := Real.sqrt_pos.mpr (by positivity)
  have hPgtv : v_inf < P := by
    rw [hPdef, Real.lt_sqrt hv.le]
    linarith
  have hrad : 0 < (P + burn_dv) ^ 2 - 2 * mu / r_peri := by
    nlinarith [hP2, mul_pos hPpos hb, sq_nonneg burn_dv, pow_pos hv 2]
  constructor
  · rw [oberth_dv_gain_eval Real.sqrt mu r_peri v_inf burn_dv hmu hr, if_pos hrad]
  · have hgt : v_inf + burn_dv < Real.sqrt ((P + burn_dv) ^ 2 - 2 * mu / r_peri) := by
      rw [Real.lt_sqrt (by positivity)]
      nlinarith [hP2, mul_pos hb (sub_pos.mpr hPgtv)]
    linarith

/-- Witness for C5 at mu 1, periapsis 2, v-infinity 1, burn 1. -/
theorem oberth_gain_exceeds_burn_witness :
    (0 : ℝ) < 1 ∧ (0 : ℝ) < 2
    ∧ oberth_dv_gain Real.sqrt 1 2 1 1
        = Except.ok
            (Real.sqrt ((Real.sqrt (1 ^ 2 + 2 * 1 / 2) + 1) ^ 2 - 2 * 1 / 2)
              - 1 - 1)
    ∧ 0 < Real.sqrt ((Real.sqrt (1 ^ 2 + 2 * 1 / 2) + 1) ^ 2 - 2 * 1 / 2)
        - 1 - 1 :=
  ⟨one_pos, two_pos,
   (oberth_gain_exceeds_burn 1 2 1 1 one_pos two_pos one_pos one_pos).1,
   (oberth_gain_exceeds_burn 1 2 1 1 one_pos two_pos one_pos one_pos).2⟩

/-- C10.  The timeline computation divides by the initial propellant mass
when it computes the final margin, so at initial total equal to initial dry
mass (allowed by the claim, which only asks total at least dry at least
50000 kg) the call raises ZeroDivisionError instead of returning the claimed
values. -/
theorem timeline_equal_masses_cex :
    (50000 : ℚ) ≤ 60000 ∧ (60000 : ℚ) ≤ 60000
    ∧ compute_test_timeline (fun _ => 2) 60000 60000
        = Except.error "ZeroDivisionError" := by
  refine ⟨by norm_num, by norm_num, ?_⟩
  norm_num [compute_test_timeline, propellant_consumed, pyDiv,
    exhaust_velocity_km_s, G0_M_S2, min_def]

/-- C10 (amended).  For every positive mass-ratio oracle and initial masses
with initial_dry at least 50000 kg and initial_total strictly above
initial_dry, the timeline returns values satisfying mass conservation:
final total equals final dry plus final propellant, final dry is the initial
dry minus the 50000 kg jettison, final total plus total consumed plus the
jettison restores the initial total, and the final propellant is never
negative because each burn's consumption is capped at the remaining
propellant.  At initial_total equal to initial_dry the margin division
raises instead. -/
theorem timeline_mass_conservation (exp : ℚ → ℚ) (hexp : ∀ x, 0 < exp x)
    (initial_total initial_dry : ℚ)
    (h1 : 50000 ≤ initial_dry) (h2 : initial_dry < initial_total) :
    isOkE (compute_test_timeline exp initial_total initial_dry) = true
    ∧ ∀ ft fd fp tc mg : ℚ,
        compute_test_timeline exp initial_total initial_dry
            = Except.ok (ft, fd, fp, tc, mg) →
          ft = fd + fp ∧ fd = initial_dry - 50000
          ∧ ft + tc + 50000 = initial_total ∧ 0 ≤ fp := by
  have hve : exhaust_velocity_km_s 1000000 ≠ 0 := by
    norm_num [exhaust_velocity_km_s, G0_M_S2]
  have hP0ne : initial_total - initial_dry ≠ 0 := by
    intro h
    linarith [sub_eq_zero.mp h]
  have hpc : ∀ m dv : ℚ, propellant_consumed exp m dv 1000000
      = Except.ok (m * (1 - 1 / exp (dv / exhaust_velocity_km_s 1000000))) := by
    intro m dv
    simp only [propellant_consumed]
    rw [pyDiv_ok hve, ok_bind, pyDiv_ok (ne_of_gt (hexp _)), ok_bind]
    rfl
  have heval : compute_test_timeline exp initial_total initial_dry
      = Except.ok
          (initial_dry - 50000 +
              ((initial_total - initial_dry
                - min ((initial_dry + (initial_total - initial_dry)) *
                    (1 - 1 / exp (5 / exhaust_velocity_km_s 1000000)))
                  (initial_total - initial_dry))
                - min ((initial_dry - 50000 +
                      (initial_total - initial_dry
                        - min ((initial_dry + (initial_total - initial_dry)) *
                            (1 - 1 / exp (5 / exhaust_velocity_km_s 1000000)))
                          (initial_total - initial_dry))) *
                    (1 - 1 / exp (3 / exhaust_velocity_km_s 1000000)))
                  (initial_total - initial_dry
                    - min ((initial_dry + (initial_total - initial_dry)) *
                        (1 - 1 / exp (5 / exhaust_velocity_km_s 1000000)))
                      (initial_total - initial_dry))),
            initial_dry - 50000,
            (initial_total - initial_dry
              - min ((initial_dry + (initial_total - initial_dry)) *
                  (1 - 1 / exp (5 / exhaust_velocity_km_s 1000000)))
                (initial_total - initial_dry))
              - min ((initial_dry - 50000 +
                    (initial_total - initial_dry
                      - min ((initial_dry + (initial_total - initial_dry)) *
                          (1 - 1 / exp (5 / exhaust_velocity_km_s 1000000)))
                        (initial_total - initial_dry))) *
                  (1 - 1 / exp (3 / exhaust_velocity_km_s 1000000)))
                (initial_total - initial_dry
                  - min ((initial_dry + (initial_total - initial_dry)) *
                      (1 - 1 / exp (5 / exhaust_velocity_km_s 1000000)))
                    (initial_total - initial_dry)),
            min ((initial_dry + (initial_total - initial_dry)) *
                (1 - 1 / exp (5 / exhaust_velocity_km_s 1000000)))
              (initial_total - initial_dry)
              + min ((initial_dry - 50000 +
                    (initial_total - initial_dry
                      - min ((initial_dry + (initial_total - initial_dry)) *
                          (1 - 1 / exp (5 / exhaust_velocity_km_s 1000000)))
                        (initial_total - initial_dry))) *
                  (1 - 1 / exp (3 / exhaust_velocity_km_s 1000000)))
                (initial_total - initial_dry
                  - min ((initial_dry + (initial_total - initial_dry)) *
                      (1 - 1 / exp (5 / exhaust_velocity_km_s 1000000)))
                    (initial_total - initial_dry)),
            ((initial_total - initial_dry
              - min ((initial_dry + (initial_total - initial_dry)) *
                  (1 - 1 / exp (5 / exhaust_velocity_km_s 1000000)))
                (initial_total - initial_dry))
              - min ((initial_dry - 50000 +
                    (initial_total - initial_dry
                      - min ((initial_dry + (initial_total - initial_dry)) *
                          (1 - 1 / exp (5 / exhaust_velocity_km_s 1000000)))
                        (initial_total - initial_dry))) *
                  (1 - 1 / exp (3 / exhaust_velocity_km_s 1000000)))
                (initial_total - initial_dry
                  - min ((initial_dry + (initial_total - initial_dry)) *
                      (1 - 1 / exp (5 / exhaust_velocity_km_s 1000000)))
                    (initial_total - initial_dry)))
              / (initial_total - initial_dry)) := by
    simp only [compute_test_timeline, hpc, ok_bind, pyDiv_ok hP0ne, pure_eq_ok]
  refine ⟨by rw [heval]; rfl, ?_⟩
  intro ft fd fp tc mg heq
  rw [heval] at heq
  simp only [Except.ok.injEq, Prod.mk.injEq] at heq
  obtain ⟨hft, hfd, hfp, htc, hmg⟩ := heq
  subst hft hfd hfp htc
  refine ⟨rfl, rfl, by ring, ?_⟩
  exact sub_nonneg.mpr (min_le_right _ _)

/-- Witness for C10 (amended) at the 300000 kg total, 200000 kg dry scenario
with the constant mass-ratio oracle 2: the timeline returns final total
150000 kg, final dry 150000 kg, final propellant 0 kg, total consumed
100000 kg and margin 0, and the conservation identities hold. -/
theorem timeline_mass_conservation_witness :
    (50000 : ℚ) ≤ 200000 ∧ (200000 : ℚ) < 300000
    ∧ compute_test_timeline (fun _ => 2) 300000 200000
        = Except.ok (150000, 150000, 0, 100000, 0)
    ∧ ((150000 : ℚ) = 150000 + 0 ∧ (150000 : ℚ) = 200000 - 50000
        ∧ (150000 : ℚ) + 100000 + 50000 = 300000 ∧ (0 : ℚ) ≤ 0) := by
  have hcomp : compute_test_timeline (fun _ => 2) 300000 200000
      = Except.ok (150000, 150000, 0, 100000, 0) := by
    norm_num [compute_test_timeline, propellant_consumed, pyDiv,
      exhaust_velocity_km_s, G0_M_S2, min_def]
  exact ⟨by norm_num, by norm_num, hcomp,
    (timeline_mass_conservation (fun _ => 2) (fun x => by norm_num) 300000 200000
      (by norm_num) (by norm_num)).2 150000 150000 0 100000 0 hcomp⟩
